import Mathlib

/-!
Shallow embedding of the public surface of the `fitparser` crate
(src/lib.rs and src/error.rs): the `Value` sum type and its `TryInto<f64>` /
`TryInto<i64>` coercions, the `FitDataField` and `FitDataRecord` types and
their `Display` implementations, and the `ErrorKind` taxonomy of
src/error.rs together with the `From<nom::Err<..>>` conversion.

Modelling conventions:
- Rust machine integers are embedded as `Nat` (unsigned) / `Int` (signed);
  where a Rust `as` cast can wrap (only `u64 as i64` in this code) the wrap
  is made explicit with an arithmetic formula.
- `f64` results of the coercions are embedded as exact rationals `ℚ`; every
  integer-to-float cast in the source is exact for inputs within the 53-bit
  mantissa, which the relevant claim hypothesises.
- `chrono::DateTime<Local>` is embedded by the only observation the code
  makes of it, `timestamp()` (POSIX seconds, an `i64`).
-/

namespace FitParse

/-- String payloads, named so the `Value.String` constructor does not shadow
the builtin type inside the inductive declaration. -/
abbrev RustString := String

/-- Embedding of `chrono::DateTime<Local>`: src/lib.rs only observes a
datetime through `.timestamp()`, its POSIX seconds as an `i64`. -/
structure DateTimeLocal where
  posixSeconds : Int
deriving DecidableEq, Repr

/-- Embedding of the `Value` enum of src/lib.rs (lines 179-221), with the
constructors in source order. -/
inductive Value where
  | Timestamp (val : DateTimeLocal)
  | Byte (val : Nat)
  | Enum (val : Nat)
  | SInt8 (val : Int)
  | UInt8 (val : Nat)
  | SInt16 (val : Int)
  | UInt16 (val : Nat)
  | SInt32 (val : Int)
  | UInt32 (val : Nat)
  | String (val : RustString)
  | Float32 (val : ℚ)
  | Float64 (val : ℚ)
  | UInt8z (val : Nat)
  | UInt16z (val : Nat)
  | UInt32z (val : Nat)
  | SInt64 (val : Int)
  | UInt64 (val : Nat)
  | UInt64z (val : Nat)
  | Array (vals : List Value)
deriving Repr

/-- Name of the `Value` variant a value was built with. -/
def Value.variantName : Value → RustString
  | .Timestamp _ => "Timestamp"
  | .Byte _ => "Byte"
  | .Enum _ => "Enum"
  | .SInt8 _ => "SInt8"
  | .UInt8 _ => "UInt8"
  | .SInt16 _ => "SInt16"
  | .UInt16 _ => "UInt16"
  | .SInt32 _ => "SInt32"
  | .UInt32 _ => "UInt32"
  | .String _ => "String"
  | .Float32 _ => "Float32"
  | .Float64 _ => "Float64"
  | .UInt8z _ => "UInt8z"
  | .UInt16z _ => "UInt16z"
  | .UInt32z _ => "UInt32z"
  | .SInt64 _ => "SInt64"
  | .UInt64 _ => "UInt64"
  | .UInt64z _ => "UInt64z"
  | .Array _ => "Array"

/-- Display of a `DateTimeLocal`. chrono renders a `DateTime<Local>` with a
calendar format; the embedding abstracts this to a rendering of the POSIX
seconds, which no claim inspects. -/
def DateTimeLocal.display (d : DateTimeLocal) : String :=
  toString d.posixSeconds

/-- Display of a rational standing in for an `f32`/`f64` payload; Rust's
float `Display` is abstracted to the rational's rendering, which no claim
inspects. -/
def ratDisplay (q : ℚ) : String :=
  toString q

/-- Embedding of `impl fmt::Display for Value` (src/lib.rs lines 223-247):
each payload is written with its own Display; the `Array` arm uses the debug
format `{:?}` of the vector, embedded as the derived `Repr` rendering. -/
def Value.display : Value → RustString
  | .Timestamp val => val.display
  | .Byte val => toString val
  | .Enum val => toString val
  | .SInt8 val => toString val
  | .UInt8 val => toString val
  | .UInt8z val => toString val
  | .SInt16 val => toString val
  | .UInt16 val => toString val
  | .UInt16z val => toString val
  | .SInt32 val => toString val
  | .UInt32 val => toString val
  | .UInt32z val => toString val
  | .SInt64 val => toString val
  | .UInt64 val => toString val
  | .UInt64z val => toString val
  | .Float32 val => ratDisplay val
  | .Float64 val => ratDisplay val
  | .String val => val
  | .Array vals => reprStr vals

/-- Error payload of the failed `Value` coercions exactly as src/lib.rs
writes it: both `TryInto` impls construct `ErrorKind::ValueError(message)`
and nothing else. The `ErrorKind` enum that src/error.rs actually defines
has no `ValueError` variant (see the theorems on `ErrorKind` below), so the
coercions' error type is embedded on its own. -/
inductive CoercionErrorKind where
  | ValueError (msg : String)
deriving DecidableEq, Repr

/-- Embedding of `impl TryInto<f64> for Value` (src/lib.rs lines 249-279).
Integer payloads are cast exactly into `ℚ`; `f32 as f64` is exact, so the
`Float32` arm is the identity on the rational payload. -/
def tryIntoF64 : Value → Except CoercionErrorKind ℚ
  | .Timestamp val => .ok (val.posixSeconds : ℚ)
  | .Byte val => .ok (val : ℚ)
  | .Enum val => .ok (val : ℚ)
  | .SInt8 val => .ok (val : ℚ)
  | .UInt8 val => .ok (val : ℚ)
  | .UInt8z val => .ok (val : ℚ)
  | .SInt16 val => .ok (val : ℚ)
  | .UInt16 val => .ok (val : ℚ)
  | .UInt16z val => .ok (val : ℚ)
  | .SInt32 val => .ok (val : ℚ)
  | .UInt32 val => .ok (val : ℚ)
  | .UInt32z val => .ok (val : ℚ)
  | .SInt64 val => .ok (val : ℚ)
  | .UInt64 val => .ok (val : ℚ)
  | .UInt64z val => .ok (val : ℚ)
  | .Float32 val => .ok val
  | .Float64 val => .ok val
  | .String val =>
      .error (.ValueError ("cannot convert " ++ (Value.String val).display ++ " into an f64"))
  | .Array vals =>
      .error (.ValueError ("cannot convert " ++ (Value.Array vals).display ++ " into an f64"))

/-- Rust's `u64 as i64` cast: a bitwise reinterpretation, so values at or
above 2^63 wrap around by 2^64. -/
def u64AsI64 (n : Nat) : Int :=
  ((n : Int) + 2 ^ 63) % 2 ^ 64 - 2 ^ 63

/-- Embedding of `impl TryInto<i64> for Value` (src/lib.rs lines 281-315).
The `u8`/`u16`/`u32` and all signed casts to `i64` are exact; the
`u64 as i64` casts in the `UInt64`/`UInt64z` arms wrap. -/
def tryIntoI64 : Value → Except CoercionErrorKind Int
  | .Timestamp val => .ok val.posixSeconds
  | .Byte val => .ok (val : Int)
  | .Enum val => .ok (val : Int)
  | .SInt8 val => .ok val
  | .UInt8 val => .ok (val : Int)
  | .UInt8z val => .ok (val : Int)
  | .SInt16 val => .ok val
  | .UInt16 val => .ok (val : Int)
  | .UInt16z val => .ok (val : Int)
  | .SInt32 val => .ok val
  | .UInt32 val => .ok (val : Int)
  | .UInt32z val => .ok (val : Int)
  | .SInt64 val => .ok val
  | .UInt64 val => .ok (u64AsI64 val)
  | .UInt64z val => .ok (u64AsI64 val)
  | .Float32 val =>
      .error (.ValueError ("cannot convert " ++ (Value.Float32 val).display ++ " into an i64"))
  | .Float64 val =>
      .error (.ValueError ("cannot convert " ++ (Value.Float64 val).display ++ " into an i64"))
  | .String val =>
      .error (.ValueError ("cannot convert " ++ (Value.String val).display ++ " into an i64"))
  | .Array vals =>
      .error (.ValueError ("cannot convert " ++ (Value.Array vals).display ++ " into an i64"))

/-- The variants on which the `TryInto<f64>` impl returns `Ok`: every
variant except `String` and `Array` (the numeric and timestamp variants). -/
def Value.isNumericOrTimestamp : Value → Bool
  | .String _ => false
  | .Array _ => false
  | _ => true

/-- The float variants of `Value`. -/
def Value.isFloat : Value → Bool
  | .Float32 _ => true
  | .Float64 _ => true
  | _ => false

/-- The variants on which the `TryInto<i64>` impl returns `Ok`: the
non-float numeric and timestamp variants. -/
def Value.isNonFloatNumeric : Value → Bool
  | .String _ => false
  | .Array _ => false
  | .Float32 _ => false
  | .Float64 _ => false
  | _ => true

/-- Whether a `Value` is an `Array`. -/
def Value.isArray : Value → Bool
  | .Array _ => true
  | _ => false

/-- The integer stored by a non-float numeric or timestamp variant
(POSIX seconds for `Timestamp`); `none` for floats, strings and arrays. -/
def Value.storedInt : Value → Option Int
  | .Timestamp val => some val.posixSeconds
  | .Byte val => some (val : Int)
  | .Enum val => some (val : Int)
  | .SInt8 val => some val
  | .UInt8 val => some (val : Int)
  | .UInt8z val => some (val : Int)
  | .SInt16 val => some val
  | .UInt16 val => some (val : Int)
  | .UInt16z val => some (val : Int)
  | .SInt32 val => some val
  | .UInt32 val => some (val : Int)
  | .UInt32z val => some (val : Int)
  | .SInt64 val => some val
  | .UInt64 val => some (val : Int)
  | .UInt64z val => some (val : Int)
  | .Float32 _ => none
  | .Float64 _ => none
  | .String _ => none
  | .Array _ => none

/-- Modelled from the spec: `profile::MesgNum`, the message-kind enumeration
of the generated FIT profile (src/profile is not part of the sources under
review; the spec says the kind comes from the profile's `MesgNum`
enumeration, unknown numbers being kept as a numeric variant). The claims
only need it to be a type with decidable equality, so it is embedded as a
wrapper around the underlying `u16` message number. -/
structure MesgNum where
  number : Nat
deriving DecidableEq, Repr

/-- Embedding of the `FitDataField` struct of src/lib.rs (lines 127-133). -/
structure FitDataField where
  name : String
  number : Nat
  value : Value
  units : String
deriving Repr

/-- Embedding of `FitDataField::new` (src/lib.rs lines 137-144). -/
def FitDataField.new (name : String) (number : Nat) (value : Value)
    (units : String) : FitDataField :=
  { name := name, number := number, value := value, units := units }

/-- Embedding of `impl fmt::Display for FitDataField` (src/lib.rs lines
167-175): if the units string is empty write just the value, else write the
value, a space, and the units. Rust's `String::is_empty` (length zero) is
embedded as equality with the empty string. -/
def FitDataField.display (fd : FitDataField) : String :=
  if fd.units = "" then fd.value.display
  else fd.value.display ++ " " ++ fd.units

/-- Embedding of the `FitDataRecord` struct of src/lib.rs (lines 42-49): a
message kind plus the ordered list of fields. -/
structure FitDataRecord where
  kind : MesgNum
  fields : List FitDataField
deriving Repr

/-- Embedding of `FitDataRecord::new` (src/lib.rs lines 53-58): an empty
record of the given kind. -/
def FitDataRecord.new (kind : MesgNum) : FitDataRecord :=
  { kind := kind, fields := [] }

/-- Embedding of `FitDataRecord::push` (src/lib.rs lines 71-73):
`Vec::push` appends the field at the end. -/
def FitDataRecord.push (r : FitDataRecord) (field : FitDataField) :
    FitDataRecord :=
  { r with fields := r.fields ++ [field] }

/-- Embedding of `std::io::Error`, observed by src/error.rs only as an
opaque payload of `ErrorKind::Io`; abstracted to its message. -/
structure IoError where
  msg : String
deriving DecidableEq, Repr

/-- Embedding of `nom::Needed`: either a known count of additionally needed
bytes or unknown. -/
inductive NomNeeded where
  | Size (n : Nat)
  | Unknown
deriving DecidableEq, Repr

/-- Embedding of `nom::error::ErrorKind`, a plain C-like enum in nom that
src/error.rs stores and never inspects; abstracted to its discriminant. -/
structure NomErrorKind where
  code : Nat
deriving DecidableEq, Repr

/-- Embedding of the `ErrorKind` enum that src/error.rs (lines 16-29)
actually defines, with the constructors in source order. Note that this is
the complete list: in particular there is no `ValueError` constructor even
though src/lib.rs constructs `ErrorKind::ValueError(..)` in its `TryInto`
impls. -/
inductive ErrorKind where
  | Io (err : IoError)
  | Custom (msg : String)
  | DeserializeAnyNotSupported
  | ParseError (position : Nat) (kind : NomErrorKind)
  | UnexpectedEof (needed : NomNeeded)
deriving DecidableEq, Repr

/-- Name of the `ErrorKind` variant an error was built with. -/
def ErrorKind.variantName : ErrorKind → String
  | .Io _ => "Io"
  | .Custom _ => "Custom"
  | .DeserializeAnyNotSupported => "DeserializeAnyNotSupported"
  | .ParseError _ _ => "ParseError"
  | .UnexpectedEof _ => "UnexpectedEof"

/-- The variant names of the `ErrorKind` enum of src/error.rs, in source
order. -/
def ErrorKind.variantNames : List String :=
  ["Io", "Custom", "DeserializeAnyNotSupported", "ParseError",
   "UnexpectedEof"]

/-- Embedding of `nom::Err<(&[u8], nom::error::ErrorKind)>`, the argument
type of the `From` conversion in src/error.rs (lines 49-57); the remaining
input slice is embedded as its list of bytes. -/
inductive NomErr where
  | Error (remaining : List Nat) (kind : NomErrorKind)
  | Failure (remaining : List Nat) (kind : NomErrorKind)
  | Incomplete (needed : NomNeeded)
deriving DecidableEq, Repr

/-- Embedding of `impl From<nom::Err<(&[u8], nom::error::ErrorKind)>> for
Error` (src/error.rs lines 49-57); the `Box` in `Error = Box<ErrorKind>` is
transparent in the embedding. -/
def errorFromNom : NomErr → ErrorKind
  | .Error remaining kind => .ParseError remaining.length kind
  | .Failure remaining kind => .ParseError remaining.length kind
  | .Incomplete needed => .UnexpectedEof needed

/-- The `Value` variant names exactly as claim C8 lists them, in the
claim's order. -/
def valueClaimedVariants : List String :=
  ["Timestamp", "Byte", "Enum", "SInt8", "SInt16", "SInt32", "SInt64",
   "UInt8", "UInt16", "UInt32", "UInt64", "UInt8z", "UInt16z", "UInt32z",
   "UInt64z", "Float32", "Float64", "String", "Array"]

/-- One sample value per `Value` constructor, in source order. -/
def valueVariantSamples : List Value :=
  [.Timestamp ⟨0⟩, .Byte 0, .Enum 0, .SInt8 0, .UInt8 0, .SInt16 0,
   .UInt16 0, .SInt32 0, .UInt32 0, .String "", .Float32 0, .Float64 0,
   .UInt8z 0, .UInt16z 0, .UInt32z 0, .SInt64 0, .UInt64 0, .UInt64z 0,
   .Array []]

/-- The `ErrorKind` variant names exactly as claim C4 lists them. -/
def errorClaimedVariants : List String :=
  ["Io", "Custom", "ParseError", "UnexpectedEof", "BadCrc", "BadMagic",
   "UnknownBaseType", "MissingDefinition", "ValueError", "InvalidFieldSize"]

/-- C1: the coercion of a `Value` to `f64` (src/lib.rs lines 249-279)
succeeds on every numeric or timestamp variant, with `Timestamp` yielding
its POSIX seconds, and fails with a `ValueError` on `String` and `Array`. -/
theorem tryIntoF64_spec (v : Value) :
    (v.isNumericOrTimestamp = true → ∃ q, tryIntoF64 v = Except.ok q) ∧
    (∀ d, v = Value.Timestamp d →
      tryIntoF64 v = Except.ok ((d.posixSeconds : ℚ))) ∧
    (v.isNumericOrTimestamp = false →
      ∃ msg, tryIntoF64 v = Except.error (CoercionErrorKind.ValueError msg)) := by
  refine ⟨?_, ?_, ?_⟩
  · intro h
    cases v <;>
      first
        | exact ⟨_, rfl⟩
        | simp [Value.isNumericOrTimestamp] at h
  · intro d hd
    subst hd
    rfl
  · intro h
    cases v <;>
      first
        | exact ⟨_, rfl⟩
        | simp [Value.isNumericOrTimestamp] at h

/-- Witness for C1 at concrete inputs: `Byte 7` coerces, `String "x"` fails
with a `ValueError`. -/
theorem tryIntoF64_spec_witness :
    ((Value.Byte 7).isNumericOrTimestamp = true ∧
      ∃ q, tryIntoF64 (Value.Byte 7) = Except.ok q) ∧
    ((Value.String "x").isNumericOrTimestamp = false ∧
      ∃ msg,
        tryIntoF64 (Value.String "x") =
          Except.error (CoercionErrorKind.ValueError msg)) :=
  ⟨⟨rfl, (tryIntoF64_spec (Value.Byte 7)).1 rfl⟩,
   ⟨rfl, (tryIntoF64_spec (Value.String "x")).2.2 rfl⟩⟩

/-- C2: the coercion of a `Value` to `i64` (src/lib.rs lines 281-315)
succeeds exactly on the f64-coercible variants minus the float variants: it
succeeds on every non-float numeric or timestamp variant, with `Timestamp`
yielding its POSIX seconds, and fails with a `ValueError` on `Float32`,
`Float64`, `String` and `Array`. -/
theorem tryIntoI64_spec (v : Value) :
    v.isNonFloatNumeric = (v.isNumericOrTimestamp && !v.isFloat) ∧
    (v.isNonFloatNumeric = true → ∃ n, tryIntoI64 v = Except.ok n) ∧
    (∀ d, v = Value.Timestamp d → tryIntoI64 v = Except.ok d.posixSeconds) ∧
    (v.isNonFloatNumeric = false →
      ∃ msg, tryIntoI64 v = Except.error (CoercionErrorKind.ValueError msg)) := by
  refine ⟨?_, ?_, ?_, ?_⟩
  · cases v <;> rfl
  · intro h
    cases v <;>
      first
        | exact ⟨_, rfl⟩
        | simp [Value.isNonFloatNumeric] at h
  · intro d hd
    subst hd
    rfl
  · intro h
    cases v <;>
      first
        | exact ⟨_, rfl⟩
        | simp [Value.isNonFloatNumeric] at h

/-- Witness for C2 at concrete inputs: `UInt16 9` coerces, `Float32 1`
fails with a `ValueError`. -/
theorem tryIntoI64_spec_witness :
    ((Value.UInt16 9).isNonFloatNumeric = true ∧
      ∃ n, tryIntoI64 (Value.UInt16 9) = Except.ok n) ∧
    ((Value.Float32 1).isNonFloatNumeric = false ∧
      ∃ msg,
        tryIntoI64 (Value.Float32 1) =
          Except.error (CoercionErrorKind.ValueError msg)) :=
  ⟨⟨rfl, (tryIntoI64_spec (Value.UInt16 9)).2.1 rfl⟩,
   ⟨rfl, (tryIntoI64_spec (Value.Float32 1)).2.2.2 rfl⟩⟩

/-- C3: on every non-float numeric or timestamp variant both coercions are
defined and agree, whenever the stored integer fits in `i64` and in the
53-bit mantissa of `f64`: the `f64` coercion returns exactly the integer the
`i64` coercion returns. -/
theorem coercion_agreement (v : Value) (n : Int) (h1 : v.storedInt = some n)
    (h2 : -(2 ^ 63) ≤ n) (h3 : n < 2 ^ 63) (h4 : n.natAbs ≤ 2 ^ 53) :
    tryIntoI64 v = Except.ok n ∧ tryIntoF64 v = Except.ok ((n : ℚ)) := by
  cases v with
  | Timestamp d =>
      obtain rfl : d.posixSeconds = n := by simpa [Value.storedInt] using h1
      exact ⟨rfl, rfl⟩
  | Byte val =>
      obtain rfl : (val : Int) = n := by simpa [Value.storedInt] using h1
      exact ⟨rfl, by simp [tryIntoF64]⟩
  | Enum val =>
      obtain rfl : (val : Int) = n := by simpa [Value.storedInt] using h1
      exact ⟨rfl, by simp [tryIntoF64]⟩
  | SInt8 val =>
      obtain rfl : val = n := by simpa [Value.storedInt] using h1
      exact ⟨rfl, rfl⟩
  | UInt8 val =>
      obtain rfl : (val : Int) = n := by simpa [Value.storedInt] using h1
      exact ⟨rfl, by simp [tryIntoF64]⟩
  | UInt8z val =>
      obtain rfl : (val : Int) = n := by simpa [Value.storedInt] using h1
      exact ⟨rfl, by simp [tryIntoF64]⟩
  | SInt16 val =>
      obtain rfl : val = n := by simpa [Value.storedInt] using h1
      exact ⟨rfl, rfl⟩
  | UInt16 val =>
      obtain rfl : (val : Int) = n := by simpa [Value.storedInt] using h1
      exact ⟨rfl, by simp [tryIntoF64]⟩
  | UInt16z val =>
      obtain rfl : (val : Int) = n := by simpa [Value.storedInt] using h1
      exact ⟨rfl, by simp [tryIntoF64]⟩
  | SInt32 val =>
      obtain rfl : val = n := by simpa [Value.storedInt] using h1
      exact ⟨rfl, rfl⟩
  | UInt32 val =>
      obtain rfl : (val : Int) = n := by simpa [Value.storedInt] using h1
      exact ⟨rfl, by simp [tryIntoF64]⟩
  | UInt32z val =>
      obtain rfl : (val : Int) = n := by simpa [Value.storedInt] using h1
      exact ⟨rfl, by simp [tryIntoF64]⟩
  | SInt64 val =>
      obtain rfl : val = n := by simpa [Value.storedInt] using h1
      exact ⟨rfl, rfl⟩
  | UInt64 val =>
      obtain rfl : (val : Int) = n := by simpa [Value.storedInt] using h1
      refine ⟨?_, by simp [tryIntoF64]⟩
      show Except.ok (u64AsI64 val) = Except.ok ((val : Int))
      rw [show u64AsI64 val = (val : Int) from by unfold u64AsI64; omega]
  | UInt64z val =>
      obtain rfl : (val : Int) = n := by simpa [Value.storedInt] using h1
      refine ⟨?_, by simp [tryIntoF64]⟩
      show Except.ok (u64AsI64 val) = Except.ok ((val : Int))
      rw [show u64AsI64 val = (val : Int) from by unfold u64AsI64; omega]
  | Float32 val => simp [Value.storedInt] at h1
  | Float64 val => simp [Value.storedInt] at h1
  | String val => simp [Value.storedInt] at h1
  | Array vals => simp [Value.storedInt] at h1

/-- Witness for C3 at the concrete input `UInt64 42`, whose stored integer
fits in `i64` and in the 53-bit mantissa. -/
theorem coercion_agreement_witness :
    (Value.UInt64 42).storedInt = some 42 ∧
    -(2 ^ 63) ≤ (42 : Int) ∧ (42 : Int) < 2 ^ 63 ∧
    (42 : Int).natAbs ≤ 2 ^ 53 ∧
    (tryIntoI64 (Value.UInt64 42) = Except.ok 42 ∧
      tryIntoF64 (Value.UInt64 42) = Except.ok (((42 : Int) : ℚ))) :=
  ⟨rfl, by decide, by decide, by decide,
   coercion_agreement (Value.UInt64 42) 42 rfl (by decide) (by decide)
     (by decide)⟩

/-- C4 (code evaluated at the failing point): the `ErrorKind` enum defined
by src/error.rs has exactly the variants `Io`, `Custom`,
`DeserializeAnyNotSupported`, `ParseError` and `UnexpectedEof`; in
particular it has no `ValueError` variant, although src/lib.rs constructs
`ErrorKind::ValueError(..)` in both `TryInto` impls, and its
`DeserializeAnyNotSupported` variant is not among the ten variants the
claim lists. -/
theorem errorKind_taxonomy_mismatch :
    (∀ e : ErrorKind, e.variantName ∈ ErrorKind.variantNames) ∧
    ErrorKind.variantNames.contains "ValueError" = false ∧
    errorClaimedVariants.contains "DeserializeAnyNotSupported" = false ∧
    ErrorKind.DeserializeAnyNotSupported.variantName =
      "DeserializeAnyNotSupported" := by
  refine ⟨?_, by decide, by decide, rfl⟩
  intro e
  cases e <;> simp [ErrorKind.variantName, ErrorKind.variantNames]

/-- C5: the `From` conversion of src/error.rs (lines 49-57) maps both the
`Error` and `Failure` cases of a nom failure to `ParseError` carrying the
length of the remaining input and the nom error kind, and maps `Incomplete`
to `UnexpectedEof` carrying the needed byte count. -/
theorem errorFromNom_spec (remaining : List Nat) (kind : NomErrorKind)
    (needed : NomNeeded) :
    errorFromNom (.Error remaining kind) =
      .ParseError remaining.length kind ∧
    errorFromNom (.Failure remaining kind) =
      .ParseError remaining.length kind ∧
    errorFromNom (.Incomplete needed) = .UnexpectedEof needed :=
  ⟨rfl, rfl, rfl⟩

/-- C6: `FitDataRecord::new` yields a record of the requested kind with no
fields, and `push` appends the field at the end of the field list, leaving
the kind and all previously pushed fields (and their order) unchanged. -/
theorem fitDataRecord_new_push_spec (k : MesgNum) (r : FitDataRecord)
    (f : FitDataField) :
    (FitDataRecord.new k).kind = k ∧
    (FitDataRecord.new k).fields = [] ∧
    (r.push f).kind = r.kind ∧
    (r.push f).fields = r.fields ++ [f] :=
  ⟨rfl, rfl, rfl, rfl⟩

/-- C7: the `Value::Array` variant is permissive: a well-typed `Value`
exists that is an `Array` whose elements include another `Array` and two
elements of different variants. -/
theorem value_array_permissive :
    ∃ v : Value, ∃ vs : List Value, v = Value.Array vs ∧
      (∃ w ∈ vs, w.isArray = true) ∧
      (∃ a ∈ vs, ∃ b ∈ vs, (a.variantName == b.variantName) = false) := by
  refine ⟨Value.Array [Value.Array [Value.UInt8 1], Value.SInt8 (-1)],
    [Value.Array [Value.UInt8 1], Value.SInt8 (-1)], rfl,
    ⟨Value.Array [Value.UInt8 1], List.mem_cons_self _ _, rfl⟩,
    Value.Array [Value.UInt8 1], List.mem_cons_self _ _,
    Value.SInt8 (-1), List.mem_cons_of_mem _ (List.mem_cons_self _ _), rfl⟩

/-- C8: the `Value` enum has exactly the nineteen variants the claim lists:
every value carries one of the listed variant names, and each listed name is
realized by a constructor of the enum. -/
theorem value_variants_exact :
    (∀ v : Value, v.variantName ∈ valueClaimedVariants) ∧
    (valueVariantSamples.map Value.variantName).Perm valueClaimedVariants := by
  refine ⟨?_, by decide⟩
  intro v
  cases v <;> simp [Value.variantName, valueClaimedVariants]

/-- C9: `FitDataField::new` round-trips with the four getters: the built
field returns exactly the name, number, value and units it was given. -/
theorem fitDataField_new_getters (name : String) (number : Nat)
    (value : Value) (units : String) :
    (FitDataField.new name number value units).name = name ∧
    (FitDataField.new name number value units).number = number ∧
    (FitDataField.new name number value units).value = value ∧
    (FitDataField.new name number value units).units = units :=
  ⟨rfl, rfl, rfl, rfl⟩

/-- C10: the Display of a `FitDataField` depends only on its value and
units: with empty units it is exactly the displayed value, otherwise the
displayed value, one space, and the units. -/
theorem fitDataField_display_spec (fd : FitDataField) :
    (fd.units = "" → fd.display = fd.value.display) ∧
    (fd.units ≠ "" → fd.display = fd.value.display ++ " " ++ fd.units) := by
  constructor
  · intro h
    simp [FitDataField.display, h]
  · intro h
    simp [FitDataField.display, h]

/-- Witness for C10 at concrete fields with empty and non-empty units. -/
theorem fitDataField_display_spec_witness :
    ((FitDataField.new "lat" 0 (Value.SInt32 5) "").units = "" ∧
      (FitDataField.new "lat" 0 (Value.SInt32 5) "").display =
        (Value.SInt32 5).display) ∧
    ((FitDataField.new "lat" 0 (Value.SInt32 5) "deg").units ≠ "" ∧
      (FitDataField.new "lat" 0 (Value.SInt32 5) "deg").display =
        (Value.SInt32 5).display ++ " " ++ "deg") :=
  ⟨⟨rfl,
    (fitDataField_display_spec (FitDataField.new "lat" 0 (Value.SInt32 5) "")).1 rfl⟩,
   ⟨by decide,
    (fitDataField_display_spec
      (FitDataField.new "lat" 0 (Value.SInt32 5) "deg")).2 (by decide)⟩⟩

end FitParse
